import Mathlib

/-!
Shallow embedding of `proxqp_balancer.py`: the solver-workspace variants
(ProxQP, QPALM, HPIPM), the per-cycle actuation logic of `balance`, and the
telemetry-recording loop. Scalars are modelled as rationals, vectors as
lists of rationals, and matrices as lists of rows. Calls into external
solver libraries are modelled by passing the library's post-solve results
(status and decision vector) as oracle inputs.
-/

namespace ProxqpBalancer

/-- Dense QP form of the MPC problem, as consumed from `qpmpc.MPCQP`:
cost matrix `P`, cost vector `q`, inequality matrix `G` and vector `h`. -/
structure MPCQP where
  P : List (List ℚ)
  q : List ℚ
  G : List (List ℚ)
  h : List ℚ

/-- Python extended slice `xs[::2]`: the entries of `xs` at even indices. -/
def strideEven : List α → List α
  | [] => []
  | [x] => [x]
  | x :: _ :: rest => x :: strideEven rest

/-- Python extended slice `xs[1::2]`: the entries of `xs` at odd indices. -/
def strideOdd : List α → List α
  | [] => []
  | [_] => []
  | _ :: y :: rest => y :: strideOdd rest

/-- Result record of `qpsolvers.Solution` as used by the balancer: the
`found` flag and the primal decision vector `x`. -/
structure Solution where
  found : Bool
  x : List ℚ

/-- Status values of the proxsuite dense solver relevant to the code
(`PROXQP_SOLVED` versus any non-solved status). -/
inductive ProxQPStatus
  | PROXQP_SOLVED
  | PROXQP_MAX_ITER_REACHED
  | PROXQP_PRIMAL_INFEASIBLE
  | PROXQP_DUAL_INFEASIBLE
deriving DecidableEq

/-- Post-solve results exposed by the proxsuite solver handle: a status and
the primal iterate `x`. These are oracle inputs to the embedding since the
solver's numerical internals are external. -/
structure ProxQPResults where
  status : ProxQPStatus
  x : List ℚ

/-- State of `ProxQPWorkspace` after `__init__` (lines 90-121 of
`proxqp_balancer.py`): problem dimensions, the data passed to
`proxqp.dense.QP.init`, the settings, and a counter of how many times
`solver.solve()` has been invoked on the backend handle. -/
structure ProxQPWorkspace where
  n : Nat
  n_eq : Nat
  n_in : Nat
  H : List (List ℚ)
  g : List ℚ
  C : List (List ℚ)
  l : List ℚ
  u : List ℚ
  eps_abs : ℚ
  eps_rel : ℚ
  verbose : Bool
  update_preconditioner : Bool
  solveCalls : Nat
deriving DecidableEq

/-- `ProxQPWorkspace.__init__`: sets `n_eq = 0`, `n_in = h.size // 2`,
`n = P.shape[1]`, initializes the dense solver with `C = G[::2, :]`,
`l = -h[1::2]`, `u = h[::2]`, then runs one `solver.solve()`. -/
def ProxQPWorkspace.init (mpc_qp : MPCQP) (eps_abs eps_rel : ℚ)
    (update_preconditioner verbose : Bool) : ProxQPWorkspace :=
  { n := (mpc_qp.P.headD []).length
    n_eq := 0
    n_in := mpc_qp.h.length / 2
    H := mpc_qp.P
    g := mpc_qp.q
    C := strideEven mpc_qp.G
    l := (strideOdd mpc_qp.h).map (fun x => -x)
    u := strideEven mpc_qp.h
    eps_abs := eps_abs
    eps_rel := eps_rel
    verbose := verbose
    update_preconditioner := update_preconditioner
    solveCalls := 1 }

/-- `ProxQPWorkspace.solve`: updates the cost vector `g`, re-solves
(incrementing the backend solve counter), and packages the backend results
into a `Solution` with `found` true exactly on status `PROXQP_SOLVED` and
`x` taken from the backend iterate. -/
def ProxQPWorkspace.solveStep (w : ProxQPWorkspace) (mpc_qp : MPCQP)
    (results : ProxQPResults) : ProxQPWorkspace × Solution :=
  ({ w with g := mpc_qp.q, solveCalls := w.solveCalls + 1 },
   { found := results.status = ProxQPStatus.PROXQP_SOLVED
     x := results.x })

/-- Post-solve results exposed by the QPALM solver handle: a textual
status, the primal iterate `x` and the dual iterate `y`. -/
structure QPALMResults where
  status : String
  x : List ℚ
  y : List ℚ

/-- State of `QPALMWorkspace` after `__init__` (lines 137-164): problem
dimensions `n, m`, the data fed to `qpalm.Data`, settings, the cached
warm-start solution, and the backend solve counter. -/
structure QPALMWorkspace where
  n : Nat
  m : Nat
  Q : List (List ℚ)
  q : List ℚ
  A : List (List ℚ)
  bmax : List ℚ
  bmin : List ℚ
  eps_abs : ℚ
  eps_rel : ℚ
  verbose : Bool
  solution : Option (List ℚ × List ℚ)
  solveCalls : Nat
deriving DecidableEq

/-- `QPALMWorkspace.__init__`: sets `n = q.shape[0]`, `m = G.shape[0]`,
`bmax = h`, `bmin = -h`, builds the solver and runs one `solver.solve()`;
the warm-start cache starts out as `None`. -/
def QPALMWorkspace.init (mpc_qp : MPCQP) (eps_abs eps_rel : ℚ)
    (verbose : Bool) : QPALMWorkspace :=
  { n := mpc_qp.q.length
    m := mpc_qp.G.length
    Q := mpc_qp.P
    q := mpc_qp.q
    A := mpc_qp.G
    bmax := mpc_qp.h
    bmin := mpc_qp.h.map (fun x => -x)
    eps_abs := eps_abs
    eps_rel := eps_rel
    verbose := verbose
    solution := none
    solveCalls := 1 }

/-- `QPALMWorkspace.solve`: updates `q`, re-seeds the warm start from the
cached previous solution when present, re-solves, caches the new iterates,
and returns a `Solution` with `found` true exactly when the backend status
string is `"solved"` and `x` taken from the backend iterate. -/
def QPALMWorkspace.solveStep (w : QPALMWorkspace) (mpc_qp : MPCQP)
    (results : QPALMResults) : QPALMWorkspace × Solution :=
  ({ w with q := mpc_qp.q
            solution := some (results.x, results.y)
            solveCalls := w.solveCalls + 1 },
   { found := results.status = "solved"
     x := results.x })

/-- Post-solve results exposed by the HPIPM solver handle: an integer
status and the decision vector `v`. -/
structure HPIPMResults where
  status : Int
  v : List ℚ

/-- State of `HPIPMWorkspace` after `__init__` (lines 182-221): problem
dimensions (`nv`, `ne = 0`, `ng = h.shape[0]`, `nb = 0`), the QP data with
the lower-bound mask zeroed out, the solver arguments, and the backend
solve counter. -/
structure HPIPMWorkspace where
  nv : Nat
  ne : Nat
  ng : Nat
  nb : Nat
  H : List (List ℚ)
  g : List ℚ
  C : List (List ℚ)
  ug : List ℚ
  lg_mask : List Bool
  mode : String
  tol : ℚ
  warm_start_arg : Nat
  solveCalls : Nat
deriving DecidableEq

/-- `HPIPMWorkspace.__init__`: sets dimensions, fills the dense QP data,
masks out the lower bound (`lg_mask` all false), configures the solver mode
and tolerances with `warm_start = 2`, and stores the handles. No call to
`solver.solve` occurs during construction. -/
def HPIPMWorkspace.init (mpc_qp : MPCQP) (mode : String) (eps_abs : ℚ) :
    HPIPMWorkspace :=
  { nv := mpc_qp.q.length
    ne := 0
    ng := mpc_qp.h.length
    nb := 0
    H := mpc_qp.P
    g := mpc_qp.q
    C := mpc_qp.G
    ug := mpc_qp.h
    lg_mask := mpc_qp.h.map (fun _ => false)
    mode := mode
    tol := eps_abs
    warm_start_arg := 2
    solveCalls := 0 }

/-- `HPIPMWorkspace.solve`: updates the cost vector `g`, solves
(incrementing the backend solve counter), and returns a `Solution` with
`found` true exactly when the backend status is `0` and `x` taken from the
backend decision vector `v`. -/
def HPIPMWorkspace.solveStep (w : HPIPMWorkspace) (mpc_qp : MPCQP)
    (results : HPIPMResults) : HPIPMWorkspace × Solution :=
  ({ w with g := mpc_qp.q, solveCalls := w.solveCalls + 1 },
   { found := results.status = 0
     x := results.v })

/-- Modelled from the spec: `upkie.utils.filters.low_pass_filter` is not
under `src/`; the spec describes it as a first-order (exponential) low-pass
filter taking the previous output, a cutoff period, the new input sample
and the cycle duration. -/
def low_pass_filter (prev_output cutoff_period new_input dt : ℚ) : ℚ :=
  prev_output + (dt / cutoff_period) * (new_input - prev_output)

/-- Modelled from the spec: `upkie.utils.clamp.clamp_and_warn` is not under
`src/`; the spec describes it as clamping to a fixed range, inclusive at
the boundary, reporting (warning) exactly when clamping is active. Returns
the clamped value and the warning flag. -/
def clamp_and_warn (x lower upper : ℚ) : ℚ × Bool :=
  if x < lower then (lower, true)
  else if upper < x then (upper, true)
  else (x, false)

/-- Per-cycle inputs to the actuation branch of `balance` (lines 351-372):
the contact-sensor flag, whether the plan came back empty (the solution was
not found), the plan's first control input, and the cycle duration. -/
structure CycleInput where
  floor_contact : Bool
  plan_is_empty : Bool
  first_input : ℚ
  dt : ℚ

/-- Actuation branch of `balance` (lines 351-372): when floor contact is
lost, the commanded velocity is low-pass filtered toward 0 with cutoff
period 0.1 s; else when the plan is empty an error is logged and the
velocity is kept; else the first input is integrated by a trapezoidal
half-step and clamped to [-1, 1]. Returns the new commanded velocity, the
clamp-warning flag and the solver-failure-logged flag. -/
def updateCommandedVelocity (commanded_velocity : ℚ) (c : CycleInput) :
    ℚ × Bool × Bool :=
  if ¬ c.floor_contact then
    (low_pass_filter commanded_velocity (1/10) 0 c.dt, false, false)
  else if c.plan_is_empty then
    (commanded_velocity, false, true)
  else
    let p := clamp_and_warn
      (commanded_velocity + c.first_input * c.dt / 2) (-1) 1
    (p.1, p.2, false)

/-- Solver backend selected on the command line (`--solver`). -/
inductive SolverChoice
  | proxqp
  | qpalm
  | hpipm
deriving DecidableEq

/-- Which code path produced the plan in one cycle of `balance`. -/
inductive PlanPath
  | solve_mpc_fresh
  | workspace_solve
  | solve_problem_oneoff
deriving DecidableEq

/-- Planning-path dispatch of `balance` (lines 334-343): when
`rebuild_qp_every_time` is set, an assertion requires the proxqp solver
before calling `solve_mpc`; otherwise the cost vector is updated and either
the workspace solves (warm start) or, with warm start unset, an assertion
again requires proxqp before the one-off `solve_problem`. An assertion
failure is modelled as `Except.error` with the assertion message. -/
def planningStep (rebuild_qp_every_time warm_start : Bool)
    (solver : SolverChoice) : Except String PlanPath :=
  if rebuild_qp_every_time then
    if solver = SolverChoice.proxqp then Except.ok PlanPath.solve_mpc_fresh
    else Except.error "Only testing this for ProxQP"
  else
    if warm_start then Except.ok PlanPath.workspace_solve
    else if solver = SolverChoice.proxqp then
      Except.ok PlanPath.solve_problem_oneoff
    else Except.error "Only testing this for ProxQP"

/-- Per-cycle oracle data for the loop in `balance`: everything one cycle
reads from the environment, the clock, and the solver. `reset_happened`
stands for `terminated or truncated`. -/
structure CycleObs where
  base_pitch : ℚ
  planning_time : ℚ
  floor_contact : Bool
  plan_is_empty : Bool
  first_input : ℚ
  reset_happened : Bool

/-- Mutable state of the `balance` loop: the step counter, the commanded
velocity, and the two telemetry arrays, which are `none` exactly when
`nb_env_steps` is zero (the code allocates them only when
`nb_env_steps > 0`). -/
structure LoopState where
  step : Nat
  commanded_velocity : ℚ
  base_pitches : Option (List ℚ)
  planning_times : Option (List ℚ)

/-- Writes one telemetry entry at index `i`, as `arr[i] = x` does on a
preallocated numpy array; a `none` buffer stays `none`. -/
def setTelemetry (arr : Option (List ℚ)) (i : Nat) (x : ℚ) :
    Option (List ℚ) :=
  arr.map (fun v => v.set i x)

/-- One iteration of the `while True` loop of `balance` (lines 300-377),
before the break test: reset zeroes the commanded velocity; telemetry is
recorded at index `step` only when `nb_env_steps > 0`; the actuation branch
updates the commanded velocity; the step counter increments only when
`nb_env_steps > 0`. Planning itself is abstracted into the oracle `o`
(the loop consumes it only through emptiness, first input and timing). -/
def runCycle (nb_env_steps : Nat) (dt : ℚ) (o : CycleObs) (s : LoopState) :
    LoopState :=
  let v0 := if o.reset_happened then 0 else s.commanded_velocity
  let bp := if 0 < nb_env_steps then
      setTelemetry s.base_pitches s.step o.base_pitch
    else s.base_pitches
  let pt := if 0 < nb_env_steps then
      setTelemetry s.planning_times s.step o.planning_time
    else s.planning_times
  let v1 := (updateCommandedVelocity v0
    ⟨o.floor_contact, o.plan_is_empty, o.first_input, dt⟩).1
  { step := if 0 < nb_env_steps then s.step + 1 else s.step
    commanded_velocity := v1
    base_pitches := bp
    planning_times := pt }

/-- The `while True` loop of `balance`, run on a stream of per-cycle oracle
observations with explicit fuel: after each cycle the loop breaks when
`nb_env_steps > 0` and the incremented step counter has reached it
(lines 374-377). -/
def balanceLoop (nb_env_steps : Nat) (dt : ℚ) (obs : Nat → CycleObs) :
    Nat → LoopState → LoopState
  | 0, s => s
  | fuel + 1, s =>
    let s1 := runCycle nb_env_steps dt (obs s.step) s
    if 0 < nb_env_steps ∧ nb_env_steps ≤ s1.step then s1
    else balanceLoop nb_env_steps dt obs fuel s1

/-- Loop state right before the first cycle of `balance` (lines 294-299):
commanded velocity 0, step 0, telemetry arrays preallocated to the run
length when `nb_env_steps > 0` and absent (`None`) otherwise. -/
def initState (nb_env_steps : Nat) : LoopState :=
  { step := 0
    commanded_velocity := 0
    base_pitches := if 0 < nb_env_steps then
        some (List.replicate nb_env_steps 0)
      else none
    planning_times := if 0 < nb_env_steps then
        some (List.replicate nb_env_steps 0)
      else none }

/-- A full run of the `balance` loop from the initial state. -/
def balanceRun (nb_env_steps : Nat) (dt : ℚ) (obs : Nat → CycleObs)
    (fuel : Nat) : LoopState :=
  balanceLoop nb_env_steps dt obs fuel (initState nb_env_steps)

/-- Entry `i` of the even-index slice is entry `2 * i` of the list. -/
theorem strideEven_getElem : ∀ (l : List α) (i : Nat),
    (strideEven l)[i]? = l[2 * i]?
  | [], _ => by simp [strideEven]
  | [x], 0 => by simp [strideEven]
  | [x], i + 1 => by
    have h2 : 2 * (i + 1) = 2 * i + 1 + 1 := by omega
    rw [h2]
    simp [strideEven]
  | x :: y :: rest, 0 => by simp [strideEven]
  | x :: y :: rest, i + 1 => by
    have h2 : 2 * (i + 1) = 2 * i + 1 + 1 := by omega
    rw [h2]
    simpa [strideEven] using strideEven_getElem rest i

/-- Entry `i` of the odd-index slice is entry `2 * i + 1` of the list. -/
theorem strideOdd_getElem : ∀ (l : List α) (i : Nat),
    (strideOdd l)[i]? = l[2 * i + 1]?
  | [], _ => by simp [strideOdd]
  | [x], i => by simp [strideOdd]
  | x :: y :: rest, 0 => by simp [strideOdd]
  | x :: y :: rest, i + 1 => by
    have h2 : 2 * (i + 1) + 1 = 2 * i + 1 + 1 + 1 := by omega
    rw [h2]
    simpa [strideOdd] using strideOdd_getElem rest i

/-- Length of the even-index slice: the row count halved, rounded up. -/
theorem strideEven_length : ∀ (l : List α),
    (strideEven l).length = (l.length + 1) / 2
  | [] => by simp [strideEven]
  | [x] => by simp [strideEven]
  | x :: y :: rest => by
    have h := strideEven_length rest
    simp [strideEven, h]
    omega

/-- Length of the odd-index slice: the row count halved, rounded down. -/
theorem strideOdd_length : ∀ (l : List α),
    (strideOdd l).length = l.length / 2
  | [] => by simp [strideOdd]
  | [x] => by simp [strideOdd]
  | x :: y :: rest => by
    have h := strideOdd_length rest
    simp [strideOdd, h]
    omega

/-- C1: constructing the ProxQP workspace from an `MPCQP` whose `G` has `m`
rows and whose `h` has `m` entries sets the inequality count to `m / 2`
(integer division), the constraint matrix `C` to the even-indexed rows of
`G`, the upper bound `u` to the even-indexed entries of `h`, and the lower
bound `l` to the negated odd-indexed entries of `h`. -/
theorem claim_C1_proxqp_box_conversion (mpc_qp : MPCQP) (m : Nat)
    (eps_abs eps_rel : ℚ) (precond verbose : Bool) (i : Nat)
    (_hG : mpc_qp.G.length = m) (hh : mpc_qp.h.length = m) :
    (ProxQPWorkspace.init mpc_qp eps_abs eps_rel precond verbose).n_in
        = m / 2 ∧
    (ProxQPWorkspace.init mpc_qp eps_abs eps_rel precond verbose).C[i]?
        = mpc_qp.G[2 * i]? ∧
    (ProxQPWorkspace.init mpc_qp eps_abs eps_rel precond verbose).u[i]?
        = mpc_qp.h[2 * i]? ∧
    (ProxQPWorkspace.init mpc_qp eps_abs eps_rel precond verbose).l[i]?
        = (mpc_qp.h[2 * i + 1]?).map (fun x => -x) := by
  refine ⟨by simp [ProxQPWorkspace.init, hh], ?_, ?_, ?_⟩
  · simp [ProxQPWorkspace.init, strideEven_getElem]
  · simp [ProxQPWorkspace.init, strideEven_getElem]
  · simp [ProxQPWorkspace.init, strideOdd_getElem]

/-- Witness for C1 at a concrete 4-row problem: the workspace has
inequality count 2, second constraint row `G[2]`, second upper bound
`h[2] = 30`, and first lower bound `-h[1] = -20`. -/
theorem claim_C1_proxqp_box_conversion_witness :
    (ProxQPWorkspace.init
        ⟨[[1, 0], [0, 1]], [5, 6], [[1, 0], [-1, 0], [0, 1], [0, -1]],
          [10, 20, 30, 40]⟩ 1 1 false false).n_in = 2 ∧
    (ProxQPWorkspace.init
        ⟨[[1, 0], [0, 1]], [5, 6], [[1, 0], [-1, 0], [0, 1], [0, -1]],
          [10, 20, 30, 40]⟩ 1 1 false false).C[1]? = some [0, 1] ∧
    (ProxQPWorkspace.init
        ⟨[[1, 0], [0, 1]], [5, 6], [[1, 0], [-1, 0], [0, 1], [0, -1]],
          [10, 20, 30, 40]⟩ 1 1 false false).u[1]? = some 30 ∧
    (ProxQPWorkspace.init
        ⟨[[1, 0], [0, 1]], [5, 6], [[1, 0], [-1, 0], [0, 1], [0, -1]],
          [10, 20, 30, 40]⟩ 1 1 false false).l[0]? = some ((-20 : ℚ)) := by
  have h := claim_C1_proxqp_box_conversion
    ⟨[[1, 0], [0, 1]], [5, 6], [[1, 0], [-1, 0], [0, 1], [0, -1]],
      [10, 20, 30, 40]⟩ 4 1 1 false false 1 (by decide) (by decide)
  have h0 := claim_C1_proxqp_box_conversion
    ⟨[[1, 0], [0, 1]], [5, 6], [[1, 0], [-1, 0], [0, 1], [0, -1]],
      [10, 20, 30, 40]⟩ 4 1 1 false false 0 (by decide) (by decide)
  refine ⟨h.1, ?_, ?_, ?_⟩
  · rw [h.2.1]; decide
  · rw [h.2.2.1]; decide
  · rw [h0.2.2.2]; decide

/-- C2 counterexample: at a concrete one-variable `MPCQP`, constructing the
HPIPM workspace performs zero backend solves, not the one initial solve the
claim asserts for every backend. -/
theorem claim_C2_initial_solve_counterexample :
    (HPIPMWorkspace.init ⟨[[1]], [1], [[1]], [1]⟩ "speed" 1).solveCalls = 0 ∧
    (HPIPMWorkspace.init ⟨[[1]], [1], [[1]], [1]⟩ "speed" 1).solveCalls ≠ 1 := by
  decide

/-- C2 amended: constructing the ProxQP or QPALM workspace performs exactly
one initial backend solve; constructing the HPIPM workspace performs none
(its first solve happens on the first `solve` call). -/
theorem claim_C2_initial_solve_amended (mpc_qp : MPCQP)
    (eps_abs eps_rel tol : ℚ) (precond verbose : Bool) (mode : String) :
    (ProxQPWorkspace.init mpc_qp eps_abs eps_rel precond verbose).solveCalls
        = 1 ∧
    (QPALMWorkspace.init mpc_qp eps_abs eps_rel verbose).solveCalls = 1 ∧
    (HPIPMWorkspace.init mpc_qp mode tol).solveCalls = 0 := by
  exact ⟨rfl, rfl, rfl⟩

/-- C3 counterexample: at a concrete `MPCQP` with three (an odd number of)
inequality rows, ProxQP workspace construction proceeds and yields a
definite workspace with `n_in = 1`, an upper bound of two entries and a
lower bound of one entry, instead of rejecting the problem; no evenness
check exists in the constructor. -/
theorem claim_C3_even_rows_check_counterexample :
    (ProxQPWorkspace.init ⟨[[1]], [1], [[1], [2], [3]], [1, 2, 3]⟩
        1 1 false false).n_in = 1 ∧
    (ProxQPWorkspace.init ⟨[[1]], [1], [[1], [2], [3]], [1, 2, 3]⟩
        1 1 false false).u = [1, 3] ∧
    (ProxQPWorkspace.init ⟨[[1]], [1], [[1], [2], [3]], [1, 2, 3]⟩
        1 1 false false).l = [-2] := by
  decide

/-- C3 amended: the paired-row precondition is assumed silently, not
verified: for any `MPCQP` with an odd number of inequality rows the ProxQP
constructor proceeds, setting the inequality count to the floored half
while the upper-bound vector keeps one entry more than that count (an
inconsistent configuration), rather than rejecting the problem. -/
theorem claim_C3_even_rows_check_amended (mpc_qp : MPCQP)
    (eps_abs eps_rel : ℚ) (precond verbose : Bool)
    (hodd : mpc_qp.h.length % 2 = 1) :
    (ProxQPWorkspace.init mpc_qp eps_abs eps_rel precond verbose).n_in
        = mpc_qp.h.length / 2 ∧
    (ProxQPWorkspace.init mpc_qp eps_abs eps_rel precond verbose).u.length
        = mpc_qp.h.length / 2 + 1 ∧
    (ProxQPWorkspace.init mpc_qp eps_abs eps_rel precond verbose).l.length
        = mpc_qp.h.length / 2 := by
  refine ⟨rfl, ?_, ?_⟩
  · simp [ProxQPWorkspace.init, strideEven_length]
    omega
  · simp [ProxQPWorkspace.init, strideOdd_length]

/-- Witness for the amended C3 at a three-row problem: the inequality count
is 1, the upper bound has 2 entries and the lower bound has 1. -/
theorem claim_C3_even_rows_check_amended_witness :
    (1 : Nat) % 2 = 1 ∧
    (ProxQPWorkspace.init ⟨[[1]], [1], [[1], [2], [3]], [1, 2, 3]⟩
        1 1 false false).n_in = 1 ∧
    (ProxQPWorkspace.init ⟨[[1]], [1], [[1], [2], [3]], [1, 2, 3]⟩
        1 1 false false).u.length = 2 ∧
    (ProxQPWorkspace.init ⟨[[1]], [1], [[1], [2], [3]], [1, 2, 3]⟩
        1 1 false false).l.length = 1 := by
  have h := claim_C3_even_rows_check_amended
    ⟨[[1]], [1], [[1], [2], [3]], [1, 2, 3]⟩ 1 1 false false (by decide)
  exact ⟨by decide, h.1, h.2.1, h.2.2⟩

/-- C4: in a cycle with no floor contact, the new commanded velocity is the
low-pass filter applied to the previous one with new input 0, cutoff period
0.1 and the cycle duration — for every value of the plan fields, so the
solver result of that cycle does not affect actuation; in particular the
branch also applies when the plan is simultaneously empty, since the
no-contact test comes first. -/
theorem claim_C4_no_contact_low_pass (v : ℚ) (c : CycleInput)
    (hnc : c.floor_contact = false) :
    (updateCommandedVelocity v c).1 = low_pass_filter v (1 / 10) 0 c.dt ∧
    (updateCommandedVelocity v c).2.2 = false := by
  simp [updateCommandedVelocity, hnc]

/-- Witness for C4 in a cycle where contact is lost and the plan is empty
at the same time: the filter output is taken and no failure is acted on.
With `v = 1/2` and `dt = 1/100` the filter yields `9/20`. -/
theorem claim_C4_no_contact_low_pass_witness :
    (updateCommandedVelocity (1 / 2) ⟨false, true, 5, 1 / 100⟩).1 = 9 / 20 ∧
    (updateCommandedVelocity (1 / 2) ⟨false, true, 5, 1 / 100⟩).2.2
        = false := by
  have h := claim_C4_no_contact_low_pass (1 / 2) ⟨false, true, 5, 1 / 100⟩
    (by decide)
  refine ⟨?_, h.2⟩
  rw [h.1]
  norm_num [low_pass_filter]

/-- C5: in a cycle with floor contact and an empty plan (solution not
found), the commanded velocity is left exactly as in the previous cycle and
the failure is logged. -/
theorem claim_C5_hold_previous_on_failure (v : ℚ) (c : CycleInput)
    (hc : c.floor_contact = true) (he : c.plan_is_empty = true) :
    (updateCommandedVelocity v c).1 = v ∧
    (updateCommandedVelocity v c).2.2 = true := by
  simp [updateCommandedVelocity, hc, he]

/-- Witness for C5: with contact present and an empty plan, the previous
commanded velocity `3/4` is kept and the error is logged. -/
theorem claim_C5_hold_previous_on_failure_witness :
    (updateCommandedVelocity (3 / 4) ⟨true, true, 7, 1 / 100⟩).1 = 3 / 4 ∧
    (updateCommandedVelocity (3 / 4) ⟨true, true, 7, 1 / 100⟩).2.2
        = true := by
  have h := claim_C5_hold_previous_on_failure (3 / 4) ⟨true, true, 7, 1 / 100⟩
    (by decide) (by decide)
  exact ⟨h.1, h.2⟩

/-- C6: in a cycle with floor contact and a found plan, the new commanded
velocity is the clamp of `v + a * dt / 2` to `[-1, 1]`; the output always
lies in `[-1, 1]` (in particular under the assumption that the previous
velocity does), the warning fires exactly when clamping engages, and an
integrated value already inside the inclusive range — boundary included —
is returned unaltered. -/
theorem claim_C6_integrate_and_clamp (v : ℚ) (c : CycleInput)
    (hc : c.floor_contact = true) (he : c.plan_is_empty = false)
    (_hv : -1 ≤ v ∧ v ≤ 1) :
    (updateCommandedVelocity v c).1
        = (clamp_and_warn (v + c.first_input * c.dt / 2) (-1) 1).1 ∧
    (-1 ≤ (updateCommandedVelocity v c).1 ∧
      (updateCommandedVelocity v c).1 ≤ 1) ∧
    ((updateCommandedVelocity v c).2.1 = true ↔
      (v + c.first_input * c.dt / 2 < -1 ∨
        1 < v + c.first_input * c.dt / 2)) ∧
    (-1 ≤ v + c.first_input * c.dt / 2 → v + c.first_input * c.dt / 2 ≤ 1 →
      (updateCommandedVelocity v c).1 = v + c.first_input * c.dt / 2) := by
  have hupd : updateCommandedVelocity v c
      = ((clamp_and_warn (v + c.first_input * c.dt / 2) (-1) 1).1,
         (clamp_and_warn (v + c.first_input * c.dt / 2) (-1) 1).2,
         false) := by
    simp [updateCommandedVelocity, hc, he]
  rw [hupd]
  unfold clamp_and_warn
  split_ifs with h1 h2
  · exact ⟨rfl, ⟨le_refl _, by norm_num⟩, by simp [h1], by intro hl _; linarith⟩
  · exact ⟨rfl, ⟨by norm_num, le_refl _⟩, by simp [h2], by intro _ hu; linarith⟩
  · refine ⟨rfl, ⟨by linarith, by linarith⟩, by simp [h1, h2], fun _ _ => rfl⟩

/-- Witness for C6 at `v = 199/200`, `a = 20`, `dt = 1/100`: the integrated
value `199/200 + 1/10 = 219/200` exceeds 1, so the command is clamped to 1
and the warning fires. -/
theorem claim_C6_integrate_and_clamp_witness :
    (updateCommandedVelocity (199 / 200) ⟨true, false, 20, 1 / 100⟩).1
        = 1 ∧
    (updateCommandedVelocity (199 / 200) ⟨true, false, 20, 1 / 100⟩).2.1
        = true := by
  have h := claim_C6_integrate_and_clamp (199 / 200) ⟨true, false, 20, 1 / 100⟩
    (by decide) (by decide) (by constructor <;> norm_num)
  constructor
  · rw [h.1]; norm_num [clamp_and_warn]
  · rw [h.2.2.1]; norm_num

/-- C9: for each backend workspace, `solve` is a total function returning a
`Solution`: whenever the backend status differs from the backend's solved
status (`PROXQP_SOLVED`, the string `"solved"`, or `0` respectively), the
returned `found` field is `false` and the decision vector is passed through
from the backend as best-effort output. -/
theorem claim_C9_solve_failure_contract (wp : ProxQPWorkspace)
    (wq : QPALMWorkspace) (wh : HPIPMWorkspace) (qp : MPCQP)
    (rp : ProxQPResults) (rq : QPALMResults) (rh : HPIPMResults)
    (hp : rp.status ≠ ProxQPStatus.PROXQP_SOLVED)
    (hq : rq.status ≠ "solved") (hh : rh.status ≠ 0) :
    ((wp.solveStep qp rp).2.found = false ∧
      (wp.solveStep qp rp).2.x = rp.x) ∧
    ((wq.solveStep qp rq).2.found = false ∧
      (wq.solveStep qp rq).2.x = rq.x) ∧
    ((wh.solveStep qp rh).2.found = false ∧
      (wh.solveStep qp rh).2.x = rh.v) := by
  refine ⟨⟨?_, rfl⟩, ⟨?_, rfl⟩, ⟨?_, rfl⟩⟩
  · simp [ProxQPWorkspace.solveStep, hp]
  · simp [QPALMWorkspace.solveStep, hq]
  · simp [HPIPMWorkspace.solveStep, hh]

/-- Witness for C9 on concrete workspaces and failed backend results: every
backend reports `found = false` and passes the backend iterate through. -/
theorem claim_C9_solve_failure_contract_witness :
    (((ProxQPWorkspace.init ⟨[[1]], [1], [[1], [2]], [1, 2]⟩ 1 1 false
        false).solveStep ⟨[[1]], [2], [[1], [2]], [1, 2]⟩
        ⟨ProxQPStatus.PROXQP_MAX_ITER_REACHED, [3]⟩).2.found = false ∧
      ((ProxQPWorkspace.init ⟨[[1]], [1], [[1], [2]], [1, 2]⟩ 1 1 false
        false).solveStep ⟨[[1]], [2], [[1], [2]], [1, 2]⟩
        ⟨ProxQPStatus.PROXQP_MAX_ITER_REACHED, [3]⟩).2.x = [3]) ∧
    (((QPALMWorkspace.init ⟨[[1]], [1], [[1], [2]], [1, 2]⟩ 1 1
        false).solveStep ⟨[[1]], [2], [[1], [2]], [1, 2]⟩
        ⟨"maximum iterations reached", [4], [5]⟩).2.found = false ∧
      ((QPALMWorkspace.init ⟨[[1]], [1], [[1], [2]], [1, 2]⟩ 1 1
        false).solveStep ⟨[[1]], [2], [[1], [2]], [1, 2]⟩
        ⟨"maximum iterations reached", [4], [5]⟩).2.x = [4]) ∧
    (((HPIPMWorkspace.init ⟨[[1]], [1], [[1], [2]], [1, 2]⟩ "speed"
        1).solveStep ⟨[[1]], [2], [[1], [2]], [1, 2]⟩
        ⟨2, [6]⟩).2.found = false ∧
      ((HPIPMWorkspace.init ⟨[[1]], [1], [[1], [2]], [1, 2]⟩ "speed"
        1).solveStep ⟨[[1]], [2], [[1], [2]], [1, 2]⟩
        ⟨2, [6]⟩).2.x = [6]) := by
  exact claim_C9_solve_failure_contract
    (ProxQPWorkspace.init ⟨[[1]], [1], [[1], [2]], [1, 2]⟩ 1 1 false false)
    (QPALMWorkspace.init ⟨[[1]], [1], [[1], [2]], [1, 2]⟩ 1 1 false)
    (HPIPMWorkspace.init ⟨[[1]], [1], [[1], [2]], [1, 2]⟩ "speed" 1)
    ⟨[[1]], [2], [[1], [2]], [1, 2]⟩
    ⟨ProxQPStatus.PROXQP_MAX_ITER_REACHED, [3]⟩
    ⟨"maximum iterations reached", [4], [5]⟩ ⟨2, [6]⟩
    (by decide) (by decide) (by decide)

/-- C10: with the rebuild-every-cycle flag set, or the warm-start flag
unset, while the selected solver is not proxqp, the planning step of each
cycle fails its assertion (modelled as an error with the assertion
message) instead of producing a plan: those two paths are only usable with
the proxqp backend. -/
theorem claim_C10_non_proxqp_assertions (r w : Bool) (s : SolverChoice)
    (hs : s ≠ SolverChoice.proxqp) (hcfg : r = true ∨ w = false) :
    planningStep r w s = Except.error "Only testing this for ProxQP" := by
  rcases hcfg with hr | hw
  · subst hr
    simp [planningStep, hs]
  · subst hw
    cases r <;> simp [planningStep, hs]

/-- Witness for C10: with the qpalm backend and the rebuild flag set, the
planning step fails the assertion. -/
theorem claim_C10_non_proxqp_assertions_witness :
    planningStep true true SolverChoice.qpalm
        = Except.error "Only testing this for ProxQP" :=
  claim_C10_non_proxqp_assertions true true SolverChoice.qpalm
    (by decide) (Or.inl rfl)

/-- Telemetry invariant of the loop after `k` completed cycles of a run of
length `N`: both arrays are allocated with length `N` and every already
visited index `i < k` holds that cycle's pitch and planning time. -/
def telemetryOk (N : Nat) (obs : Nat → CycleObs) (k : Nat)
    (s : LoopState) : Prop :=
  ∃ bp pt, s.base_pitches = some bp ∧ s.planning_times = some pt ∧
    bp.length = N ∧ pt.length = N ∧
    (∀ i, i < k → bp[i]? = some (obs i).base_pitch) ∧
    (∀ i, i < k → pt[i]? = some (obs i).planning_time)

/-- With a positive run length, one cycle advances the step counter and
records the cycle's telemetry at the previous step index. -/
theorem runCycle_pos_fields (N : Nat) (hN : 0 < N) (dt : ℚ) (o : CycleObs)
    (s : LoopState) :
    (runCycle N dt o s).step = s.step + 1 ∧
    (runCycle N dt o s).base_pitches
        = setTelemetry s.base_pitches s.step o.base_pitch ∧
    (runCycle N dt o s).planning_times
        = setTelemetry s.planning_times s.step o.planning_time := by
  refine ⟨?_, ?_, ?_⟩ <;> simp [runCycle, hN]

/-- One cycle preserves the telemetry invariant, extending it to the newly
recorded index. -/
theorem runCycle_telemetry (N : Nat) (hN : 0 < N) (dt : ℚ)
    (obs : Nat → CycleObs) (s : LoopState) (hstep : s.step < N)
    (hok : telemetryOk N obs s.step s) :
    telemetryOk N obs (s.step + 1) (runCycle N dt (obs s.step) s) := by
  obtain ⟨bp, pt, hbp, hpt, hlbp, hlpt, hibp, hipt⟩ := hok
  obtain ⟨h1, h2, h3⟩ := runCycle_pos_fields N hN dt (obs s.step) s
  refine ⟨bp.set s.step (obs s.step).base_pitch,
    pt.set s.step (obs s.step).planning_time, ?_, ?_, ?_, ?_, ?_, ?_⟩
  · rw [h2, hbp]; rfl
  · rw [h3, hpt]; rfl
  · simp [hlbp]
  · simp [hlpt]
  · intro i hi
    rcases Nat.lt_succ_iff_lt_or_eq.mp hi with h | h
    · rw [List.getElem?_set_ne (by omega)]
      exact hibp i h
    · subst h
      exact List.getElem?_set_eq_of_lt _ (by omega)
  · intro i hi
    rcases Nat.lt_succ_iff_lt_or_eq.mp hi with h | h
    · rw [List.getElem?_set_ne (by omega)]
      exact hipt i h
    · subst h
      exact List.getElem?_set_eq_of_lt _ (by omega)

/-- Running the loop with exactly enough fuel to reach the configured run
length completes the telemetry invariant at every index below `N`. -/
theorem balanceLoop_telemetry (N : Nat) (dt : ℚ) (obs : Nat → CycleObs) :
    ∀ (fuel : Nat) (s : LoopState), 0 < N → s.step + fuel = N →
      telemetryOk N obs s.step s →
      telemetryOk N obs N (balanceLoop N dt obs fuel s)
  | 0, s, _, hfuel, hok => by
    simp only [balanceLoop]
    have h : s.step = N := by omega
    rwa [h] at hok
  | fuel + 1, s, hN, hfuel, hok => by
    simp only [balanceLoop]
    have hstep : s.step < N := by omega
    have hok1 := runCycle_telemetry N hN dt obs s hstep hok
    have hs1 : (runCycle N dt (obs s.step) s).step = s.step + 1 :=
      (runCycle_pos_fields N hN dt (obs s.step) s).1
    by_cases hbr : 0 < N ∧ N ≤ (runCycle N dt (obs s.step) s).step
    · rw [if_pos hbr]
      have hend : s.step + 1 = N := by omega
      rwa [hend] at hok1
    · rw [if_neg hbr]
      refine balanceLoop_telemetry N dt obs fuel
        (runCycle N dt (obs s.step) s) hN (by omega) ?_
      rw [hs1]
      exact hok1

/-- C7: a run of `N > 0` cycles fills exactly two telemetry arrays, both of
length exactly `N`, writing one entry per cycle at the cycle's index: entry
`i` holds cycle `i`'s base pitch, respectively planning time. -/
theorem claim_C7_telemetry_arrays (N : Nat) (hN : 0 < N) (dt : ℚ)
    (obs : Nat → CycleObs) (i : Nat) (hi : i < N) :
    (balanceRun N dt obs N).base_pitches.map List.length = some N ∧
    (balanceRun N dt obs N).planning_times.map List.length = some N ∧
    (balanceRun N dt obs N).base_pitches.bind (fun v => v[i]?)
        = some (obs i).base_pitch ∧
    (balanceRun N dt obs N).planning_times.bind (fun v => v[i]?)
        = some (obs i).planning_time := by
  have hinit : telemetryOk N obs (initState N).step (initState N) := by
    refine ⟨List.replicate N 0, List.replicate N 0, ?_, ?_, by simp, by simp,
      ?_, ?_⟩
    · simp [initState, hN]
    · simp [initState, hN]
    · intro j hj
      simp [initState] at hj
    · intro j hj
      simp [initState] at hj
  have hfin := balanceLoop_telemetry N dt obs N (initState N) hN
    (by simp [initState]) hinit
  obtain ⟨bp, pt, hbp, hpt, hlbp, hlpt, hibp, hipt⟩ := hfin
  have hrun : balanceRun N dt obs N = balanceLoop N dt obs N (initState N) :=
    rfl
  rw [hrun, hbp, hpt]
  refine ⟨by simp [hlbp], by simp [hlpt], ?_, ?_⟩
  · simpa using hibp i hi
  · simpa using hipt i hi

/-- Witness for C7 at a two-cycle run, with cycle `k` showing pitch `k` and
planning time `k + 2`: both arrays have length 2 and index 1 holds cycle
1's pitch and planning time. -/
theorem claim_C7_telemetry_arrays_witness :
    (0 : Nat) < 2 ∧
    (balanceRun 2 1 (fun k => ⟨(k : ℚ), (k : ℚ) + 2, true, false, 0, false⟩)
        2).base_pitches.map List.length = some 2 ∧
    (balanceRun 2 1 (fun k => ⟨(k : ℚ), (k : ℚ) + 2, true, false, 0, false⟩)
        2).base_pitches.bind (fun v => v[1]?) = some 1 ∧
    (balanceRun 2 1 (fun k => ⟨(k : ℚ), (k : ℚ) + 2, true, false, 0, false⟩)
        2).planning_times.bind (fun v => v[1]?) = some 3 := by
  have h := claim_C7_telemetry_arrays 2 (by decide) 1
    (fun k => ⟨(k : ℚ), (k : ℚ) + 2, true, false, 0, false⟩) 1 (by decide)
  refine ⟨by decide, h.1, ?_, ?_⟩
  · rw [h.2.2.1]
    norm_num
  · rw [h.2.2.2]
    norm_num

/-- C8 counterexample: with run length zero, one concrete cycle from the
initial state records nothing — both telemetry buffers stay `none` (the
code only allocates and writes them when `nb_env_steps > 0`), contradicting
the claim that recording still happens every cycle. -/
theorem claim_C8_streaming_telemetry_counterexample :
    (runCycle 0 1 ⟨7, 8, true, false, 0, false⟩ (initState 0)).base_pitches
        = none ∧
    (runCycle 0 1 ⟨7, 8, true, false, 0, false⟩ (initState 0)).planning_times
        = none := by
  constructor <;> rfl

/-- C8 amended: when the configured run length is zero, no telemetry is
recorded at all: the buffers are initialized to `None` and every cycle
leaves both telemetry fields unchanged. -/
theorem claim_C8_streaming_telemetry_amended (dt : ℚ) (o : CycleObs)
    (s : LoopState) :
    (runCycle 0 dt o s).base_pitches = s.base_pitches ∧
    (runCycle 0 dt o s).planning_times = s.planning_times ∧
    (initState 0).base_pitches = none ∧
    (initState 0).planning_times = none := by
  refine ⟨?_, ?_, rfl, rfl⟩ <;> simp [runCycle]

end ProxqpBalancer
